import Mathlib

/-!
Shallow embedding of `src/tools/sd3/generate.py` (the whole repository's
decision logic): command-line argument parsing defaults, hardware-capability
resolution of width/height/steps/device/dtype, the single generation run with
its fallible collaborator calls (library import, model load, transfer to
device, generation pass, directory creation, image save), the diagnostic and
primary output streams, and the process exit status.

The fallible collaborators (torch / diffusers / PIL) are modelled as an
environment of oracles returning `Except PyErr _`; the filesystem is modelled
as the set of existing directories, with `Path.mkdir` given its documented
pathlib semantics (`parents=True` creates missing ancestors; `exist_ok=True`
suppresses the already-exists error). Everything the process can observably
do is collected in `RunOutput`.
-/

namespace SD3

/-- Compute device selected by the probe: `"cuda"` or `"cpu"` in the source. -/
inductive Device where
  | cuda
  | cpu
deriving DecidableEq, Repr

/-- Numeric precision selected by the probe: `torch.float16` or `torch.float32`. -/
inductive DType where
  | float16
  | float32
deriving DecidableEq, Repr

/-- Parsed command-line arguments, after argparse applied its defaults
(`width`/`height`/`steps` default to `0`, `negative` to `""`, `guidance`
to `7.0`).  Python ints are unbounded, hence `Int`; the float `guidance`
is only passed through unchanged, modelled as `Rat`. -/
structure Args where
  prompt : String
  output : String
  model : String
  width : Int
  height : Int
  steps : Int
  negative : String
  guidance : Rat
deriving DecidableEq, Repr

/-- Command-line input before argparse defaults: `none` means the flag was
omitted on the command line. `prompt`, `output`, `model` are `required=True`. -/
structure CliInput where
  prompt : String
  output : String
  model : String
  width : Option Int
  height : Option Int
  steps : Option Int
  negative : Option String
  guidance : Option Rat
deriving DecidableEq, Repr

/-- argparse default application: `--width`/`--height`/`--steps` default to 0,
`--negative` to the empty string, `--guidance` to 7.0. -/
def parseArgs (c : CliInput) : Args where
  prompt := c.prompt
  output := c.output
  model := c.model
  width := c.width.getD 0
  height := c.height.getD 0
  steps := c.steps.getD 0
  negative := c.negative.getD ""
  guidance := c.guidance.getD 7

/-- Capability-derived execution profile: device, dtype and the default
dimensions/steps chosen in the `if cuda_available` block of `main`. -/
structure Caps where
  device : Device
  dtype : DType
  default_width : Int
  default_height : Int
  default_steps : Int
deriving DecidableEq, Repr

/-- Lines 32-39 of the source: profile derived from `torch.cuda.is_available()`. -/
def capsOf (cuda_available : Bool) : Caps :=
  if cuda_available then
    { device := Device.cuda, dtype := DType.float16,
      default_width := 1024, default_height := 1024, default_steps := 28 }
  else
    { device := Device.cpu, dtype := DType.float32,
      default_width := 512, default_height := 512, default_steps := 10 }

/-- One field of lines 41-43: `args.width if args.width > 0 else default_width`. -/
def resolveDim (user deflt : Int) : Int :=
  if user > 0 then user else deflt

/-- Resolved concrete generation dimensions and step count. -/
structure Resolved where
  width : Int
  height : Int
  steps : Int
deriving DecidableEq, Repr

/-- Lines 41-43 of the source, all three fields. -/
def resolveReq (args : Args) (caps : Caps) : Resolved where
  width := resolveDim args.width caps.default_width
  height := resolveDim args.height caps.default_height
  steps := resolveDim args.steps caps.default_steps

/-- The keyword arguments of the `pipe(...)` call on lines 58-65.
`negative_prompt` is `args.negative if args.negative else None`: the empty
string is falsy in Python, so it is mapped to `none`. -/
structure GenCall where
  prompt : String
  negative_prompt : Option String
  num_inference_steps : Int
  guidance_scale : Rat
  width : Int
  height : Int
deriving DecidableEq, Repr

/-- Builds the backend invocation from the parsed args and resolved request. -/
def genCallOf (args : Args) (r : Resolved) : GenCall where
  prompt := args.prompt
  negative_prompt := if args.negative = "" then none else some args.negative
  num_inference_steps := r.steps
  guidance_scale := args.guidance
  width := r.width
  height := r.height

/-- A Python exception as the `except` clauses of `main` can see it:
`ImportError` is caught by its own clause, every other `Exception` by the
catch-all.  The payload is `str(e)`. -/
inductive PyErr where
  | importError (msg : String)
  | exception (msg : String)
deriving DecidableEq, Repr

/-- The single diagnostic line the handlers on lines 86-91 print for a
caught failure. -/
def errorMessage : PyErr → String
  | PyErr.importError m => "Missing dependency: " ++ m
  | PyErr.exception m => "Error: " ++ m

/-- A directory path as a list of components. -/
abbrev DirPath := List String

/-- The filesystem state relevant to the tool: the set of existing
directories (as a duplicate-free-by-construction list). -/
abbrev FS := List DirPath

/-- Adds a directory if absent; creating an existing directory is a no-op
at the state level. -/
def insertDir (fs : FS) (d : DirPath) : FS :=
  if d ∈ fs then fs else fs ++ [d]

/-- All nonempty initial segments of a directory path: the directory itself
and every ancestor that `parents=True` would create. -/
def dirAncestors : DirPath → List DirPath
  | [] => []
  | c :: rest => [c] :: (dirAncestors rest).map (fun p => c :: p)

/-- `Path.mkdir(parents=True, exist_ok=...)` per the pathlib contract: with
`parents` set, missing ancestors are created; if the target directory already
exists, `FileExistsError` is raised unless `exist_ok` is set. -/
def mkdir (fs : FS) (dir : DirPath) (exist_ok : Bool) : Except PyErr FS :=
  if dir ∈ fs ∧ exist_ok = false then
    Except.error (PyErr.exception ("FileExistsError: " ++ String.intercalate "/" dir))
  else
    Except.ok ((dirAncestors dir).foldl insertDir fs)

/-- Splits a character list at every `/`, accumulating the current chunk in
reverse. -/
def splitSlash : List Char → List Char → List (List Char)
  | [], cur => [cur.reverse]
  | c :: rest, cur =>
    if c = '/' then cur.reverse :: splitSlash rest []
    else splitSlash rest (c :: cur)

/-- Path components of a string path (separator `/`, empty components dropped). -/
def pathComponents (s : String) : List String :=
  ((splitSlash s.data []).map (fun cs => String.mk cs)).filter (fun c => ¬ c = "")

/-- `Path(s).parent` as components. -/
def parentComponents (s : String) : List String :=
  (pathComponents s).dropLast

/-- Lines 68-69 of the source:
`output_path.parent.mkdir(parents=True, exist_ok=True)`. -/
def ensureOutputDir (fs : FS) (output : String) : Except PyErr FS :=
  mkdir fs (parentComponents output) true

/-- The ambient environment and external collaborators of one process run:
the CUDA probe result and the outcome of each fallible library call.  Pipeline
and image handles are opaque (`Nat`). -/
structure Env where
  cuda_available : Bool
  importResult : Except PyErr Unit
  fromSingleFile : String → DType → Except PyErr Nat
  toDevice : Nat → Device → Except PyErr Nat
  pipeCall : Nat → GenCall → Except PyErr Nat
  saveImage : Nat → String → Except PyErr Unit

/-- The structured record printed on stdout on lines 76-84. -/
structure Metadata where
  success : Bool
  path : String
  width : Int
  height : Int
  steps : Int
  cuda : Bool
deriving DecidableEq, Repr

/-- Everything one process run observably does. -/
structure RunOutput where
  exitCode : Nat
  stdoutRecords : List Metadata
  stderrLines : List String
  fs : FS
  saved : List (String × Nat)
deriving DecidableEq, Repr

/-- Python `str()` of a boolean, as it appears in the first diagnostic line. -/
def pyBool (b : Bool) : String :=
  if b then "True" else "False"

/-- The device string of the source. -/
def deviceStr : Device → String
  | Device.cuda => "cuda"
  | Device.cpu => "cpu"

/-- The outcome of a run that ends in one of the two `except` clauses:
exit status 1, nothing on stdout, the diagnostic stream so far plus the one
error line, no file saved. -/
def mkFail (e : PyErr) (stderrSoFar : List String) (fs : FS) : RunOutput where
  exitCode := 1
  stdoutRecords := []
  stderrLines := stderrSoFar ++ [errorMessage e]
  fs := fs
  saved := []

/-- The whole `try` block of `main` (lines 25-91), sequenced exactly as the
source: probe, resolve, two progress lines, load, transfer, progress line,
generate, mkdir, save, progress line, stdout record.  Any failure falls to
`mkFail` with the diagnostic lines printed up to that point. -/
def run (env : Env) (fs0 : FS) (args : Args) : RunOutput :=
  match env.importResult with
  | Except.error e => mkFail e [] fs0
  | Except.ok _ =>
    let cuda_available := env.cuda_available
    let caps := capsOf cuda_available
    let r := resolveReq args caps
    let log1 := "[SD3] cuda=" ++ pyBool cuda_available ++ " device=" ++ deviceStr caps.device
      ++ " width=" ++ toString r.width ++ " height=" ++ toString r.height
      ++ " steps=" ++ toString r.steps
    let log2 := "Loading model from: " ++ args.model
    match env.fromSingleFile args.model caps.dtype with
    | Except.error e => mkFail e [log1, log2] fs0
    | Except.ok pipe0 =>
      match env.toDevice pipe0 caps.device with
      | Except.error e => mkFail e [log1, log2] fs0
      | Except.ok pipe =>
        let log3 := "Generating image: " ++ args.prompt.take 50 ++ "..."
        match env.pipeCall pipe (genCallOf args r) with
        | Except.error e => mkFail e [log1, log2, log3] fs0
        | Except.ok image =>
          match ensureOutputDir fs0 args.output with
          | Except.error e => mkFail e [log1, log2, log3] fs0
          | Except.ok fs1 =>
            match env.saveImage image args.output with
            | Except.error e => mkFail e [log1, log2, log3] fs1
            | Except.ok _ =>
              let log4 := "Image saved to: " ++ args.output
              { exitCode := 0
                stdoutRecords := [{ success := true, path := args.output, width := r.width,
                                    height := r.height, steps := r.steps, cuda := cuda_available }]
                stderrLines := [log1, log2, log3, log4]
                fs := fs1
                saved := [(args.output, image)] }

/-- True exactly when the run gets past the generation pass, i.e. reaches the
persistence step (lines 67-72). -/
def reachesPersist (env : Env) (args : Args) : Bool :=
  match env.importResult with
  | Except.error _ => false
  | Except.ok _ =>
    let caps := capsOf env.cuda_available
    match env.fromSingleFile args.model caps.dtype with
    | Except.error _ => false
    | Except.ok pipe0 =>
      match env.toDevice pipe0 caps.device with
      | Except.error _ => false
      | Except.ok pipe =>
        match env.pipeCall pipe (genCallOf args (resolveReq args caps)) with
        | Except.error _ => false
        | Except.ok _ => true

/-- Sample parsed arguments with a nested output path and everything left at
its default. -/
def argsPlain : Args where
  prompt := "a red fox"
  output := "out/img.png"
  model := "m.safetensors"
  width := 0
  height := 0
  steps := 0
  negative := ""
  guidance := 7

/-- Sample parsed arguments with explicit positive overrides. -/
def argsOverride : Args where
  prompt := "a red fox"
  output := "out/img.png"
  model := "m.safetensors"
  width := 640
  height := 480
  steps := 15
  negative := ""
  guidance := 7

/-- Sample parsed arguments with negative overrides. -/
def argsNeg : Args where
  prompt := "a red fox"
  output := "out/img.png"
  model := "m.safetensors"
  width := -5
  height := -1
  steps := -100
  negative := ""
  guidance := 7

/-- Sample parsed arguments whose output path has no parent directory. -/
def argsFlat : Args where
  prompt := "a red fox"
  output := "img.png"
  model := "m.safetensors"
  width := 0
  height := 0
  steps := 0
  negative := ""
  guidance := 7

/-- Sample command-line input with width/height/steps omitted. -/
def cliOmitted : CliInput where
  prompt := "a red fox"
  output := "out/img.png"
  model := "m.safetensors"
  width := none
  height := some 0
  steps := none
  negative := none
  guidance := none

/-- Environment in which every collaborator call succeeds, on a machine
without CUDA. -/
def envAllOk : Env where
  cuda_available := false
  importResult := Except.ok ()
  fromSingleFile := fun _ _ => Except.ok 0
  toDevice := fun p _ => Except.ok p
  pipeCall := fun _ _ => Except.ok 0
  saveImage := fun _ _ => Except.ok ()

/-- Environment in which the generation pass succeeds but the image save
raises. -/
def envSaveFails : Env where
  cuda_available := false
  importResult := Except.ok ()
  fromSingleFile := fun _ _ => Except.ok 0
  toDevice := fun p _ => Except.ok p
  pipeCall := fun _ _ => Except.ok 0
  saveImage := fun _ _ => Except.error (PyErr.exception "boom")

/-- Environment in which the generation pass itself raises, with the same
exception text as `envSaveFails`. -/
def envGenFails : Env where
  cuda_available := false
  importResult := Except.ok ()
  fromSingleFile := fun _ _ => Except.ok 0
  toDevice := fun p _ => Except.ok p
  pipeCall := fun _ _ => Except.error (PyErr.exception "boom")
  saveImage := fun _ _ => Except.ok ()

/-- Environment in which loading the model raises (for example, the
checkpoint path does not exist). -/
def envLoadFails : Env where
  cuda_available := false
  importResult := Except.ok ()
  fromSingleFile := fun _ _ =>
    Except.error (PyErr.exception "No such file or directory: missing.safetensors")
  toDevice := fun p _ => Except.ok p
  pipeCall := fun _ _ => Except.ok 0
  saveImage := fun _ _ => Except.ok ()

/-- Environment in which the backend library is not installed. -/
def envImportFails : Env where
  cuda_available := false
  importResult := Except.error (PyErr.importError "No module named torch")
  fromSingleFile := fun _ _ => Except.ok 0
  toDevice := fun p _ => Except.ok p
  pipeCall := fun _ _ => Except.ok 0
  saveImage := fun _ _ => Except.ok ()

theorem mem_insertDir (fs : FS) (d x : DirPath) :
    x ∈ insertDir fs d ↔ x ∈ fs ∨ x = d := by
  unfold insertDir
  split
  · rename_i h
    constructor
    · exact Or.inl
    · rintro (hx | rfl)
      · exact hx
      · exact h
  · simp [List.mem_append]

theorem mem_foldl_insertDir (l : List DirPath) (fs : FS) (x : DirPath) :
    x ∈ l.foldl insertDir fs ↔ x ∈ fs ∨ x ∈ l := by
  induction l generalizing fs with
  | nil => simp
  | cons d rest ih =>
    simp only [List.foldl_cons, ih, mem_insertDir, List.mem_cons]
    tauto

theorem foldl_insertDir_of_subset (l : List DirPath) (fs : FS)
    (h : ∀ d ∈ l, d ∈ fs) : l.foldl insertDir fs = fs := by
  induction l with
  | nil => rfl
  | cons d rest ih =>
    have hd : d ∈ fs := h d (List.mem_cons_self d rest)
    simp only [List.foldl_cons, insertDir, if_pos hd]
    exact ih fun e he => h e (List.mem_cons_of_mem d he)

theorem ensureOutputDir_ok (fs : FS) (out : String) :
    ensureOutputDir fs out =
      Except.ok ((dirAncestors (parentComponents out)).foldl insertDir fs) := by
  unfold ensureOutputDir mkdir
  simp

theorem mkFail_spec (e : PyErr) (ss : List String) (fs : FS) :
    ((mkFail e ss fs).exitCode = 0 ∧ (mkFail e ss fs).stdoutRecords.length = 1) ∨
    ((mkFail e ss fs).exitCode = 1 ∧ (mkFail e ss fs).stdoutRecords = [] ∧
      ∃ e2 pre, (mkFail e ss fs).stderrLines = pre ++ [errorMessage e2]) :=
  Or.inr ⟨rfl, rfl, e, ss, rfl⟩

/-- Claim C1: for every user-supplied width, height and steps value that is a
positive integer, the resolved request uses exactly that value for the
corresponding field, independently for each field and regardless of the
capability report. -/
theorem c1_positive_override_used (args : Args) (cuda : Bool) :
    (0 < args.width → (resolveReq args (capsOf cuda)).width = args.width) ∧
    (0 < args.height → (resolveReq args (capsOf cuda)).height = args.height) ∧
    (0 < args.steps → (resolveReq args (capsOf cuda)).steps = args.steps) := by
  refine ⟨fun h => ?_, fun h => ?_, fun h => ?_⟩ <;>
    simp [resolveReq, resolveDim, h]

/-- Witness for C1 at width 640, height 480, steps 15 on the accelerated
profile. -/
theorem c1_witness :
    (resolveReq argsOverride (capsOf true)).width = 640 ∧
    (resolveReq argsOverride (capsOf true)).height = 480 ∧
    (resolveReq argsOverride (capsOf true)).steps = 15 :=
  ⟨(c1_positive_override_used argsOverride true).1 (by decide),
   (c1_positive_override_used argsOverride true).2.1 (by decide),
   (c1_positive_override_used argsOverride true).2.2 (by decide)⟩

/-- Claim C2: a zero or omitted user value resolves to the capability-derived
default for that field, and the two capability profiles differ:
cuda gives device cuda, dtype float16, defaults 1024/1024/28; no cuda gives
device cpu, dtype float32, defaults 512/512/10. -/
theorem c2_zero_or_omitted_uses_default (c : CliInput) (cuda : Bool) :
    ((c.width = none ∨ c.width = some 0) →
      (resolveReq (parseArgs c) (capsOf cuda)).width = (capsOf cuda).default_width) ∧
    ((c.height = none ∨ c.height = some 0) →
      (resolveReq (parseArgs c) (capsOf cuda)).height = (capsOf cuda).default_height) ∧
    ((c.steps = none ∨ c.steps = some 0) →
      (resolveReq (parseArgs c) (capsOf cuda)).steps = (capsOf cuda).default_steps) ∧
    capsOf true =
      { device := Device.cuda, dtype := DType.float16, default_width := 1024,
        default_height := 1024, default_steps := 28 } ∧
    capsOf false =
      { device := Device.cpu, dtype := DType.float32, default_width := 512,
        default_height := 512, default_steps := 10 } := by
  refine ⟨?_, ?_, ?_, rfl, rfl⟩ <;>
    rintro (h | h) <;> simp [parseArgs, resolveReq, resolveDim, h]

/-- Witness for C2: width omitted, height supplied as 0, steps omitted, on the
fallback profile. -/
theorem c2_witness :
    (resolveReq (parseArgs cliOmitted) (capsOf false)).width = (capsOf false).default_width ∧
    (resolveReq (parseArgs cliOmitted) (capsOf false)).height = (capsOf false).default_height ∧
    (resolveReq (parseArgs cliOmitted) (capsOf false)).steps = (capsOf false).default_steps :=
  ⟨(c2_zero_or_omitted_uses_default cliOmitted false).1 (Or.inl (by decide)),
   (c2_zero_or_omitted_uses_default cliOmitted false).2.1 (Or.inr (by decide)),
   (c2_zero_or_omitted_uses_default cliOmitted false).2.2.1 (Or.inl (by decide))⟩

/-- Claim C3, counterexample: a run in which the generation backend succeeds
(`envSaveFails.pipeCall` always returns `Except.ok`) but the image save fails
emits no structured record at all on the primary stream (and exits 1), so
"backend succeeds implies exactly one structured record" is false as stated. -/
theorem c3_counterexample :
    envSaveFails.pipeCall 0 (genCallOf argsPlain (resolveReq argsPlain (capsOf false))) =
      Except.ok 0 ∧
    (run envSaveFails [] argsPlain).stdoutRecords = [] ∧
    (run envSaveFails [] argsPlain).exitCode = 1 :=
  ⟨rfl, rfl, rfl⟩

/-- Claim C3 as amended: for every run in which the generation backend AND the
subsequent persistence step succeed, exactly one structured record is emitted
on the primary stream, carrying success=true, the output path, the cuda flag,
and the resolved width/height/steps. -/
theorem c3_success_record (env : Env) (fs0 : FS) (args : Args) (pipe0 pipe img : Nat)
    (h0 : env.importResult = Except.ok ())
    (h1 : env.fromSingleFile args.model (capsOf env.cuda_available).dtype = Except.ok pipe0)
    (h2 : env.toDevice pipe0 (capsOf env.cuda_available).device = Except.ok pipe)
    (h3 : env.pipeCall pipe (genCallOf args (resolveReq args (capsOf env.cuda_available))) =
      Except.ok img)
    (h4 : env.saveImage img args.output = Except.ok ()) :
    (run env fs0 args).stdoutRecords =
      [{ success := true, path := args.output,
         width := (resolveReq args (capsOf env.cuda_available)).width,
         height := (resolveReq args (capsOf env.cuda_available)).height,
         steps := (resolveReq args (capsOf env.cuda_available)).steps,
         cuda := env.cuda_available }] := by
  simp only [run, h0, h1, h2, h3, h4, ensureOutputDir_ok]

/-- Witness for the amended C3 on a fully successful run without CUDA. -/
theorem c3_witness :
    (run envAllOk [] argsPlain).stdoutRecords =
      [{ success := true, path := "out/img.png", width := 512, height := 512,
         steps := 10, cuda := false }] :=
  c3_success_record envAllOk [] argsPlain 0 0 0 rfl rfl rfl rfl rfl

/-- Claim C4: every run either succeeds with exit status 0 and exactly one
structured record, or fails with exit status 1, an empty primary stream, and a
diagnostic stream ending in the single converted error message; no failure
escapes without an observable message. -/
theorem c4_failure_containment (env : Env) (fs0 : FS) (args : Args) :
    ((run env fs0 args).exitCode = 0 ∧ (run env fs0 args).stdoutRecords.length = 1) ∨
    ((run env fs0 args).exitCode = 1 ∧ (run env fs0 args).stdoutRecords = [] ∧
      ∃ e pre, (run env fs0 args).stderrLines = pre ++ [errorMessage e]) := by
  rcases h0 : env.importResult with e | u
  · simp only [run, h0]
    exact mkFail_spec e [] fs0
  · rcases h1 : env.fromSingleFile args.model (capsOf env.cuda_available).dtype with e | pipe0
    · simp only [run, h0, h1]
      exact mkFail_spec e _ fs0
    · rcases h2 : env.toDevice pipe0 (capsOf env.cuda_available).device with e | pipe
      · simp only [run, h0, h1, h2]
        exact mkFail_spec e _ fs0
      · rcases h3 : env.pipeCall pipe
            (genCallOf args (resolveReq args (capsOf env.cuda_available))) with e | image
        · simp only [run, h0, h1, h2, h3]
          exact mkFail_spec e _ fs0
        · rcases h4 : ensureOutputDir fs0 args.output with e | fs1
          · simp only [run, h0, h1, h2, h3, h4]
            exact mkFail_spec e _ fs0
          · rcases h5 : env.saveImage image args.output with e | u2
            · simp only [run, h0, h1, h2, h3, h4, h5]
              exact mkFail_spec e _ fs1
            · left
              simp [run, h0, h1, h2, h3, h4, h5]

/-- Claim C5, counterexample: the code does not surface each failure mode as a
distinct category.  A generation-pass failure and an image-save failure with
the same exception text produce byte-for-byte identical observable behavior
(same exit status, same empty primary stream, same diagnostic lines, same
filesystem), so the categories GenerationFailure and IOFailure are not
distinguishable; only ImportError gets a distinct message prefix. -/
theorem c5_counterexample :
    run envGenFails [] argsFlat = run envSaveFails [] argsFlat ∧
    (run envGenFails [] argsFlat).exitCode = 1 ∧
    envGenFails.pipeCall 0 (genCallOf argsFlat (resolveReq argsFlat (capsOf false))) =
      Except.error (PyErr.exception "boom") ∧
    envSaveFails.saveImage 0 argsFlat.output = Except.error (PyErr.exception "boom") :=
  ⟨rfl, rfl, rfl, rfl⟩

/-- Claim C5 as amended: when loading the model fails, the process exits 1
with no structured record on the primary stream, and the diagnostic stream is
exactly the two progress lines followed by the load error's text prefixed
with "Error: " — the same prefix every non-ImportError failure gets; only an
ImportError is surfaced with the distinct "Missing dependency: " prefix. -/
theorem c5_model_load_failure (env : Env) (fs0 : FS) (args : Args) (m : String)
    (h0 : env.importResult = Except.ok ())
    (h1 : env.fromSingleFile args.model (capsOf env.cuda_available).dtype =
      Except.error (PyErr.exception m)) :
    (run env fs0 args).exitCode = 1 ∧
    (run env fs0 args).stdoutRecords = [] ∧
    (run env fs0 args).stderrLines =
      ["[SD3] cuda=" ++ pyBool env.cuda_available ++ " device="
          ++ deviceStr (capsOf env.cuda_available).device
          ++ " width=" ++ toString (resolveReq args (capsOf env.cuda_available)).width
          ++ " height=" ++ toString (resolveReq args (capsOf env.cuda_available)).height
          ++ " steps=" ++ toString (resolveReq args (capsOf env.cuda_available)).steps,
       "Loading model from: " ++ args.model,
       "Error: " ++ m] ∧
    errorMessage (PyErr.exception m) = "Error: " ++ m ∧
    errorMessage (PyErr.importError m) = "Missing dependency: " ++ m := by
  simp only [run, h0, h1]
  exact ⟨rfl, rfl, rfl, rfl, rfl⟩

/-- Witness for the amended C5: a concrete run whose model load fails. -/
theorem c5_witness :
    (run envLoadFails [] argsPlain).exitCode = 1 ∧
    (run envLoadFails [] argsPlain).stdoutRecords = [] ∧
    (run envLoadFails [] argsPlain).stderrLines =
      ["[SD3] cuda=False device=cpu width=512 height=512 steps=10",
       "Loading model from: m.safetensors",
       "Error: No such file or directory: missing.safetensors"] ∧
    errorMessage (PyErr.exception "No such file or directory: missing.safetensors") =
      "Error: " ++ "No such file or directory: missing.safetensors" ∧
    errorMessage (PyErr.importError "No such file or directory: missing.safetensors") =
      "Missing dependency: " ++ "No such file or directory: missing.safetensors" :=
  c5_model_load_failure envLoadFails [] argsPlain
    "No such file or directory: missing.safetensors" rfl rfl

/-- Claim C6: an absent `--negative` flag and an empty negative prompt parse
to identical arguments, hence identical resolved requests and identical runs,
and the backend invocation carries `none` as its negative prompt. -/
theorem c6_negative_prompt_equivalence (c : CliInput) (cuda : Bool) (env : Env) (fs : FS) :
    parseArgs { c with negative := none } = parseArgs { c with negative := some "" } ∧
    (genCallOf (parseArgs { c with negative := none })
      (resolveReq (parseArgs { c with negative := none }) (capsOf cuda))).negative_prompt =
        none ∧
    run env fs (parseArgs { c with negative := none }) =
      run env fs (parseArgs { c with negative := some "" }) :=
  ⟨rfl, rfl, rfl⟩

theorem resolveDim_pos (u d : Int) (hd : 0 < d) : 0 < resolveDim u d := by
  unfold resolveDim
  split <;> omega

theorem capsOf_defaults_pos (cuda : Bool) :
    0 < (capsOf cuda).default_width ∧ 0 < (capsOf cuda).default_height ∧
    0 < (capsOf cuda).default_steps := by
  cases cuda <;> refine ⟨?_, ?_, ?_⟩ <;> decide

/-- Claim C7: for every user input and every capability report, the resolved
width, height and steps are strictly positive — never zero and never the
zero auto-sentinel. -/
theorem c7_resolved_positive (args : Args) (cuda : Bool) :
    0 < (resolveReq args (capsOf cuda)).width ∧
    0 < (resolveReq args (capsOf cuda)).height ∧
    0 < (resolveReq args (capsOf cuda)).steps :=
  ⟨resolveDim_pos _ _ (capsOf_defaults_pos cuda).1,
   resolveDim_pos _ _ (capsOf_defaults_pos cuda).2.1,
   resolveDim_pos _ _ (capsOf_defaults_pos cuda).2.2⟩

/-- Claim C8: the persister's directory creation
(`mkdir(parents=True, exist_ok=True)`) creates all missing ancestors of the
output path, and performing it a second time on the resulting filesystem
succeeds and changes nothing — it never fails because the directories
already exist. -/
theorem c8_mkdir_idempotent (fs : FS) (out : String) :
    ensureOutputDir fs out =
      Except.ok ((dirAncestors (parentComponents out)).foldl insertDir fs) ∧
    ensureOutputDir ((dirAncestors (parentComponents out)).foldl insertDir fs) out =
      Except.ok ((dirAncestors (parentComponents out)).foldl insertDir fs) ∧
    ∀ d ∈ dirAncestors (parentComponents out),
      d ∈ (dirAncestors (parentComponents out)).foldl insertDir fs := by
  have hmem : ∀ d ∈ dirAncestors (parentComponents out),
      d ∈ (dirAncestors (parentComponents out)).foldl insertDir fs :=
    fun d hd => (mem_foldl_insertDir _ _ _).mpr (Or.inr hd)
  refine ⟨ensureOutputDir_ok fs out, ?_, hmem⟩
  rw [ensureOutputDir_ok]
  exact congrArg Except.ok (foldl_insertDir_of_subset _ _ hmem)

/-- Witness for C8 on an empty filesystem and the nested path
"out/imgs/img.png". -/
theorem c8_witness :
    ensureOutputDir [] "out/imgs/img.png" = Except.ok [["out"], ["out", "imgs"]] ∧
    ensureOutputDir [["out"], ["out", "imgs"]] "out/imgs/img.png" =
      Except.ok [["out"], ["out", "imgs"]] ∧
    ["out"] ∈ [["out"], ["out", "imgs"]] := by
  have h := c8_mkdir_idempotent [] "out/imgs/img.png"
  exact ⟨h.1, h.2.1, h.2.2 ["out"] (by decide)⟩

/-- Claim C9: a negative user-supplied width, height or steps is treated
exactly like the unset sentinel — the code tests `> 0`, not `== 0` — so each
such field resolves to the capability-derived default. -/
theorem c9_negative_override_uses_default (args : Args) (cuda : Bool) :
    (args.width < 0 →
      (resolveReq args (capsOf cuda)).width = (capsOf cuda).default_width) ∧
    (args.height < 0 →
      (resolveReq args (capsOf cuda)).height = (capsOf cuda).default_height) ∧
    (args.steps < 0 →
      (resolveReq args (capsOf cuda)).steps = (capsOf cuda).default_steps) := by
  refine ⟨fun h => ?_, fun h => ?_, fun h => ?_⟩ <;>
    simp only [resolveReq, resolveDim] <;> rw [if_neg (by omega)]

/-- Witness for C9 at width -5, height -1, steps -100 on the accelerated
profile. -/
theorem c9_witness :
    (resolveReq argsNeg (capsOf true)).width = (capsOf true).default_width ∧
    (resolveReq argsNeg (capsOf true)).height = (capsOf true).default_height ∧
    (resolveReq argsNeg (capsOf true)).steps = (capsOf true).default_steps :=
  ⟨(c9_negative_override_uses_default argsNeg true).1 (by decide),
   (c9_negative_override_uses_default argsNeg true).2.1 (by decide),
   (c9_negative_override_uses_default argsNeg true).2.2 (by decide)⟩

/-- Claim C10: a run that fails before the persistence step (import, model
load, transfer to device, or the generation pass) makes no filesystem
modification: the directory set is unchanged, no file is written, and the
process exits 1. -/
theorem c10_no_effects_before_persist (env : Env) (fs0 : FS) (args : Args)
    (h : reachesPersist env args = false) :
    (run env fs0 args).fs = fs0 ∧ (run env fs0 args).saved = [] ∧
    (run env fs0 args).exitCode = 1 := by
  rcases h0 : env.importResult with e | u
  · simp only [run, h0]
    exact ⟨rfl, rfl, rfl⟩
  · rcases h1 : env.fromSingleFile args.model (capsOf env.cuda_available).dtype with e | pipe0
    · simp only [run, h0, h1]
      exact ⟨rfl, rfl, rfl⟩
    · rcases h2 : env.toDevice pipe0 (capsOf env.cuda_available).device with e | pipe
      · simp only [run, h0, h1, h2]
        exact ⟨rfl, rfl, rfl⟩
      · rcases h3 : env.pipeCall pipe
            (genCallOf args (resolveReq args (capsOf env.cuda_available))) with e | image
        · simp only [run, h0, h1, h2, h3]
          exact ⟨rfl, rfl, rfl⟩
        · exfalso
          simp only [reachesPersist, h0, h1, h2, h3] at h
          exact Bool.noConfusion h

/-- Witness for C10: the backend library is missing, so nothing is created. -/
theorem c10_witness :
    (run envImportFails [] argsPlain).fs = [] ∧
    (run envImportFails [] argsPlain).saved = [] ∧
    (run envImportFails [] argsPlain).exitCode = 1 :=
  c10_no_effects_before_persist envImportFails [] argsPlain rfl

end SD3
